import Mathlib

/-!
Shallow embedding of the ContextFlow core (session-summary parsing,
workflow-compliance validation, log pruning, context-snapshot rendering)
from `contextflow/core/session_updater.py`, `contextflow/core/workflow_manager.py`
and `contextflow/core/context_extractor.py`, together with theorems settling
the frozen claims about it.

Python strings are modelled as `String`/`List Char`; the `re` patterns used
by the source are compiled by hand into total matching functions whose
behaviour coincides with CPython `re.findall` / `re.search` on those
patterns (each pattern is a concatenation of character-class repetitions
and literals, so leftmost matching with greedy backtracking reduces to
maximal-run scanning; for the one pattern whose first class contains the
following literal dot, the backtracking is spelled out explicitly).
-/

set_option maxRecDepth 4000

namespace ContextFlow

/-! ## Character classes of the source's regular expressions -/

/-- ASCII uppercase letter, the `[A-Z]` class. -/
def isUpperAZ (c : Char) : Bool := 'A' ≤ c && c ≤ 'Z'

/-- ASCII lowercase letter, the `[a-z]` class. -/
def isLowerAZ (c : Char) : Bool := 'a' ≤ c && c ≤ 'z'

/-- The `[A-Z]` class as compiled under `re.IGNORECASE` (and also the
`[a-zA-Z]` class): either case is accepted. -/
def isLetterAZ (c : Char) : Bool := isUpperAZ c || isLowerAZ c

/-- ASCII digit, the `\d` class. -/
def isDigit09 (c : Char) : Bool := '0' ≤ c && c ≤ '9'

/-- The `\w` class (ASCII fragment): letters, digits and underscore. -/
def isWordCh (c : Char) : Bool := isLetterAZ c || isDigit09 c || c == '_'

/-- The `[a-zA-Z0-9/_.-]` class of the file-path patterns in
`parse_session_summary`. -/
def isFpCh (c : Char) : Bool :=
  isLetterAZ c || isDigit09 c || c == '/' || c == '_' || c == '.' || c == '-'

/-! ## Python string primitives used by the source -/

/-- Python `str.lower` on one character (ASCII fragment). -/
def pyLowerChar (c : Char) : Char :=
  if isUpperAZ c then Char.ofNat (c.toNat + 32) else c

/-- Python `str.upper` on one character (ASCII fragment). -/
def pyUpperChar (c : Char) : Char :=
  if isLowerAZ c then Char.ofNat (c.toNat - 32) else c

/-- Python `str.lower`. -/
def pyLower (s : String) : String := ⟨s.data.map pyLowerChar⟩

/-- Python whitespace recognised by `str.strip` (ASCII fragment). -/
def pyIsSpace (c : Char) : Bool :=
  c == ' ' || c == '\t' || c == '\n' || c == '\r' || c == '\x0b' || c == '\x0c'

/-- Python `str.strip()`: whitespace removed from both ends. -/
def pyStrip (s : String) : String :=
  ⟨((s.data.dropWhile pyIsSpace).reverse.dropWhile pyIsSpace).reverse⟩

/-- Helper for `pyTitle`: walks the characters tracking whether the previous
character was a letter. -/
def pyTitleGo : Bool → List Char → List Char
  | _, [] => []
  | prevAlpha, c :: cs =>
    (if isLetterAZ c then (if prevAlpha then pyLowerChar c else pyUpperChar c) else c)
      :: pyTitleGo (isLetterAZ c) cs

/-- Python `str.title` (ASCII fragment): the first letter of every maximal
letter run is uppercased, the rest lowercased. -/
def pyTitle (s : String) : String := ⟨pyTitleGo false s.data⟩

/-- Splitting a character list at newlines (Python `str.split("\n")`):
always at least one piece, empty pieces kept. -/
def splitOnNl : List Char → List (List Char)
  | [] => [[]]
  | c :: t =>
    if c == '\n' then [] :: splitOnNl t
    else
      match splitOnNl t with
      | [] => [[c]]
      | h :: r => (c :: h) :: r

/-- Python `s.split("\n")` on strings. -/
def pySplitLines (s : String) : List String := (splitOnNl s.data).map (fun l => ⟨l⟩)

/-- Boolean list-prefix test on characters. -/
def isPrefixOfCL : List Char → List Char → Bool
  | [], _ => true
  | _ :: _, [] => false
  | a :: as, b :: bs => a == b && isPrefixOfCL as bs

/-- Python substring test `pat in hay` (first argument is the pattern). -/
def containsSub (pat : List Char) : List Char → Bool
  | [] => isPrefixOfCL pat []
  | c :: t => isPrefixOfCL pat (c :: t) || containsSub pat t

/-- Python `pat in s` on strings. -/
def strIn (pat s : String) : Bool := containsSub pat.data s.data

/-! ## The source's regular expressions as head matchers

A head matcher returns the token the pattern matches at the start of the
input, or `none`.  Every token is the exact list of characters consumed.
-/

/-- Head match of `[A-Z]+-\d+` compiled with `re.IGNORECASE` (so the class
accepts both cases): a maximal letter run, a hyphen, a maximal digit run.
Because letters, `-` and digits are disjoint classes, greedy matching with
backtracking degenerates to exactly this. -/
def matchJira (cs : List Char) : Option (List Char) :=
  let letters := cs.takeWhile isLetterAZ
  match cs.dropWhile isLetterAZ with
  | '-' :: rest =>
    let digs := rest.takeWhile isDigit09
    if letters.isEmpty || digs.isEmpty then none else some (letters ++ '-' :: digs)
  | _ => none

/-- Head match of `#\d+`: a hash then a maximal digit run. -/
def matchHash : List Char → Option (List Char)
  | '#' :: rest =>
    let digs := rest.takeWhile isDigit09
    if digs.isEmpty then none else some ('#' :: digs)
  | _ => none

/-- Case-insensitive literal prefix (the compiled form of a literal under
`re.IGNORECASE`); returns the actual characters consumed. -/
def ciPrefix : List Char → List Char → Option (List Char)
  | [], _ => some []
  | _ :: _, [] => none
  | k :: ks, c :: cs =>
    if pyLowerChar c == pyLowerChar k then (ciPrefix ks cs).map (fun l => c :: l)
    else none

/-- Head match of `<kw>\d+` with `re.IGNORECASE` where `kw` is a literal
(used for `issue-\d+` and `task-\d+`). -/
def matchKw (kw : List Char) (cs : List Char) : Option (List Char) :=
  match ciPrefix kw cs with
  | none => none
  | some pre =>
    let digs := (cs.drop kw.length).takeWhile isDigit09
    if digs.isEmpty then none else some (pre ++ digs)

/-- Head match of `\w+\.\w+` (the validator's file heuristic): a maximal
word-character run, a dot, a maximal word-character run; the classes are
again disjoint from the literal dot. -/
def matchWordDotWord (cs : List Char) : Option (List Char) :=
  let run := cs.takeWhile isWordCh
  match cs.dropWhile isWordCh with
  | '.' :: rest =>
    let w2 := rest.takeWhile isWordCh
    if run.isEmpty || w2.isEmpty then none else some (run ++ '.' :: w2)
  | _ => none

/-- Head match of a case-sensitive literal followed by one-or-more of a
class (`src/\w+`, `lib/\w+`, `components/\w+`, `pages/\w+`,
`src/[a-zA-Z0-9/_.-]+`, `docs/[a-zA-Z0-9/_.-]+`). -/
def matchLitThen (lit : List Char) (cls : Char → Bool) (cs : List Char) :
    Option (List Char) :=
  if isPrefixOfCL lit cs then
    let run := (cs.drop lit.length).takeWhile cls
    if run.isEmpty then none else some (lit ++ run)
  else none

/-- Backtracking loop for `[a-zA-Z0-9/_.-]+\.[a-zA-Z]+`: the greedy first
repetition is shortened from length `n` downwards until a literal dot
followed by at least one letter comes next (CPython tries the longest
first-group match first and the pattern ends with a greedy letter run). -/
def fpTry (cs : List Char) : Nat → Option (List Char)
  | 0 => none
  | n + 1 =>
    match cs.drop (n + 1) with
    | '.' :: rest =>
      let ext := rest.takeWhile isLetterAZ
      if ext.isEmpty then fpTry cs n else some (cs.take (n + 1) ++ '.' :: ext)
    | _ => fpTry cs n

/-- Head match of `[a-zA-Z0-9/_.-]+\.[a-zA-Z]+` (file paths with an
alphabetic extension).  The dot is itself in the first class, so the
greedy run is cut back by `fpTry`. -/
def matchFilePath (cs : List Char) : Option (List Char) :=
  fpTry cs (cs.takeWhile isFpCh).length

/-- Fuelled scanning loop for `findAll`; every iteration consumes at least
one character, so fuel equal to the input length is always enough. -/
def findAllAux (m : List Char → Option (List Char)) : Nat → List Char → List (List Char)
  | 0, _ => []
  | _, [] => []
  | fuel + 1, c :: cs =>
    match m (c :: cs) with
    | some tok => tok :: findAllAux m fuel (cs.drop (tok.length - 1))
    | none => findAllAux m fuel cs

/-- `re.findall`: scan left to right, emitting non-overlapping leftmost
matches and resuming right after each match (all the source's patterns
match at least one character). -/
def findAll (m : List Char → Option (List Char)) (l : List Char) : List (List Char) :=
  findAllAux m l.length l

/-- `re.search` as a Boolean: does the pattern match at some position. -/
def reSearch (m : List Char → Option (List Char)) : List Char → Bool
  | [] => false
  | c :: cs => (m (c :: cs)).isSome || reSearch m cs

/-- `re.findall` over a `String`, tokens as `String`s. -/
def findAllS (m : List Char → Option (List Char)) (s : String) : List String :=
  (findAll m s.data).map (fun l => ⟨l⟩)

/-! ## SessionUpdater.parse_session_summary and its helpers
(`contextflow/core/session_updater.py`) -/

/-- The structured update built by `parse_session_summary` (the untouched
scalar fields `summary`, `timestamp` and `project_type` are carried along;
the wall clock is passed in as the `timestamp` argument). -/
structure SessionUpdate where
  summary : String
  timestamp : String
  project_type : String
  work_items : List String
  files_changed : List String
  features_added : List String
  bugs_fixed : List String
  architecture_changes : List String
  documentation_updates : List String
  categories : List String
deriving DecidableEq

/-- `SessionUpdater.extract_features`: lines holding an action term and a
feature noun, whitespace-stripped, in order of appearance. -/
def extract_features (s : String) : List String :=
  ((pySplitLines s).filter (fun line =>
    (["implemented", "added", "created", "new"].any (fun t => strIn t (pyLower line))) &&
    (["feature", "component", "function", "endpoint", "page"].any
      (fun t => strIn t (pyLower line))))).map pyStrip

/-- `SessionUpdater.extract_bug_fixes`. -/
def extract_bug_fixes (s : String) : List String :=
  ((pySplitLines s).filter (fun line =>
    ["fixed", "resolved", "corrected"].any (fun t => strIn t (pyLower line)))).map pyStrip

/-- `SessionUpdater.extract_architecture_changes`. -/
def extract_architecture_changes (s : String) : List String :=
  ((pySplitLines s).filter (fun line =>
    ["architecture", "design", "refactor", "restructure", "migrate"].any
      (fun t => strIn t (pyLower line)))).map pyStrip

/-- `SessionUpdater.extract_documentation_updates`. -/
def extract_documentation_updates (s : String) : List String :=
  ((pySplitLines s).filter (fun line =>
    ["documentation", "docs", "readme", "guide", "manual"].any
      (fun t => strIn t (pyLower line)))).map pyStrip

/-- The four `work_item_patterns` applied in order by `re.findall` (all with
`re.IGNORECASE`), results concatenated by `extend`. -/
def workItemMatches (s : String) : List String :=
  findAllS matchJira s ++ findAllS matchHash s ++
    findAllS (matchKw "issue-".data) s ++ findAllS (matchKw "task-".data) s

/-- The three `file_patterns` applied in order (no IGNORECASE), results
concatenated by `extend`. -/
def fileMatches (s : String) : List String :=
  findAllS matchFilePath s ++ findAllS (matchLitThen "src/".data isFpCh) s ++
    findAllS (matchLitThen "docs/".data isFpCh) s

/-- Category trigger keyword lists tested against the lowercased summary. -/
def featureTerms : List String :=
  ["implemented", "added", "created", "new feature", "enhancement"]

def bugfixTerms : List String := ["fixed", "resolved", "bug", "issue", "error"]

def architectureTerms : List String := ["architecture", "design", "refactor", "restructure"]

def documentationTerms : List String := ["documentation", "docs", "readme", "guide"]

/-- `SessionUpdater.parse_session_summary`.  The `list(set(...))`
deduplications on `work_items`, `files_changed` and `categories` are
modelled by `List.dedup` (Python's set iteration order is unspecified, so
only membership and freedom from duplicates are meaningful). -/
def parse_session_summary (ptype timestamp s : String) : SessionUpdate :=
  let sl := pyLower s
  let isFeature := featureTerms.any (fun t => strIn t sl)
  let isBugfix := bugfixTerms.any (fun t => strIn t sl)
  let isArchitecture := architectureTerms.any (fun t => strIn t sl)
  let isDocumentation := documentationTerms.any (fun t => strIn t sl)
  { summary := s
    timestamp := timestamp
    project_type := ptype
    work_items := (workItemMatches s).dedup
    files_changed := (fileMatches s).dedup
    features_added := if isFeature then extract_features s else []
    bugs_fixed := if isBugfix then extract_bug_fixes s else []
    architecture_changes := if isArchitecture then extract_architecture_changes s else []
    documentation_updates := if isDocumentation then extract_documentation_updates s else []
    categories := ((if isFeature then ["feature"] else []) ++
      (if isBugfix then ["bugfix"] else []) ++
      (if isArchitecture then ["architecture"] else []) ++
      (if isDocumentation then ["documentation"] else [])).dedup }

/-! ## WorkflowManager (`contextflow/core/workflow_manager.py`) -/

/-- The workflow slice of the configuration consumed by `WorkflowManager`. -/
structure WorkflowConfig where
  mandatory_session_updates : Bool
  require_work_item_references : Bool
  session_log_retention_days : Nat
  auto_archive_logs : Bool
deriving DecidableEq

/-- The validation dictionary built by `validate_session_update`. -/
structure ValidationResult where
  valid : Bool
  warnings : List String
  errors : List String
  suggestions : List String
deriving DecidableEq

/-- `WorkflowManager._has_work_item_references`: `re.search` of the four
work-item patterns with `re.IGNORECASE`, any hit wins. -/
def hasWorkItemReferences (s : String) : Bool :=
  reSearch matchJira s.data || reSearch matchHash s.data ||
    reSearch (matchKw "issue-".data) s.data || reSearch (matchKw "task-".data) s.data

/-- The fixed vocabulary of `WorkflowManager._has_action_words`. -/
def actionWords : List String :=
  ["implemented", "added", "created", "built", "developed",
   "fixed", "resolved", "corrected", "repaired",
   "updated", "modified", "changed", "improved", "refactored",
   "optimized", "enhanced", "tested", "validated", "verified",
   "documented", "wrote", "drafted"]

/-- `WorkflowManager._has_action_words`. -/
def hasActionWords (s : String) : Bool :=
  actionWords.any (fun w => strIn w (pyLower s))

/-- `WorkflowManager._has_file_references`: `re.search` of the five
file-looking patterns (case-sensitive), any hit wins. -/
def hasFileReferences (s : String) : Bool :=
  reSearch matchWordDotWord s.data ||
    reSearch (matchLitThen "src/".data isWordCh) s.data ||
    reSearch (matchLitThen "lib/".data isWordCh) s.data ||
    reSearch (matchLitThen "components/".data isWordCh) s.data ||
    reSearch (matchLitThen "pages/".data isWordCh) s.data

/-- The fixed error text appended when work-item references are missing. -/
def workItemsError : String :=
  "Work item references are required but none found. Include references like PROJ-123, #456, or issue-789."

/-- The fixed warning text appended for summaries under 20 characters. -/
def shortSummaryWarning : String :=
  "Session summary is very short. Consider adding more detail about what was accomplished."

/-- The fixed suggestion text appended when no action word occurs. -/
def actionWordsSuggestion : String :=
  "Consider including action words like \x27implemented\x27, \x27fixed\x27, \x27added\x27, \x27updated\x27 to clarify what was done."

/-- The fixed suggestion text appended when no file-looking token occurs. -/
def fileReferencesSuggestion : String :=
  "Consider mentioning specific files that were modified to help track changes."

/-- `WorkflowManager.validate_session_update`: the four checks mutate the
validation dictionary in source order; the chain of `let` rebindings below
mirrors that mutation step by step. -/
def validate_session_update (cfg : WorkflowConfig) (s : String) : ValidationResult :=
  let v : ValidationResult := { valid := true, warnings := [], errors := [], suggestions := [] }
  let v := if cfg.require_work_item_references && !hasWorkItemReferences s then
      { v with errors := v.errors ++ [workItemsError], valid := false }
    else v
  let v := if (pyStrip s).length < 20 then
      { v with warnings := v.warnings ++ [shortSummaryWarning] }
    else v
  let v := if !hasActionWords s then
      { v with suggestions := v.suggestions ++ [actionWordsSuggestion] }
    else v
  let v := if !hasFileReferences s then
      { v with suggestions := v.suggestions ++ [fileReferencesSuggestion] }
    else v
  v

/-- The source prints each surfaced message as an indented bullet line. -/
def bulletLine (msg : String) : String := "   • " ++ msg

def failedHeader : String := "❌ Session update validation failed:"

def warningsHeader : String := "⚠️  Session update warnings:"

def suggestionsHeader : String := "💡 Session update suggestions:"

/-- `WorkflowManager.enforce_workflow_compliance`.  The returned pair is
(return value, lines printed to the console in order) — the console is the
notification channel of the spec. -/
def enforce_workflow_compliance (cfg : WorkflowConfig) (s : String) :
    Bool × List String :=
  if !cfg.mandatory_session_updates then (true, [])
  else
    let v := validate_session_update cfg s
    if !v.valid then
      (false, failedHeader :: v.errors.map bulletLine)
    else
      (true,
        (if !v.warnings.isEmpty then warningsHeader :: v.warnings.map bulletLine else []) ++
        (if !v.suggestions.isEmpty then suggestionsHeader :: v.suggestions.map bulletLine else []))

/-! ## WorkflowManager.cleanup_old_logs

The filesystem is abstracted: a session log is a name plus a modification
time, and `opFails` models the `rename`/`unlink` call raising at runtime
(the `except` branch of the source's per-file loop).  `cleanup_old_logs`
returns the report dictionary together with the filesystem operations it
performed, in order.  `yearMonth` stands for `datetime.now().strftime("%Y-%m")`.
-/

structure LogFile where
  name : String
  mtime : Int
  opFails : Bool
deriving DecidableEq

structure CleanupReport where
  cleaned : Nat
  archived : Nat
  errors : List String
deriving DecidableEq

inductive FsOp where
  | rename (src dst : String)
  | delete (path : String)
deriving DecidableEq

/-- `datetime.now().timestamp() - retention_days * 24 * 60 * 60`. -/
def retentionCutoff (cfg : WorkflowConfig) (now : Int) : Int :=
  now - cfg.session_log_retention_days * 86400

/-- The `old_logs` list comprehension: files strictly older than the cutoff. -/
def oldLogs (cfg : WorkflowConfig) (now : Int) (files : List LogFile) : List LogFile :=
  files.filter (fun f => decide (f.mtime < retentionCutoff cfg now))

/-- `log_dir / "archive" / datetime.now().strftime("%Y-%m")`. -/
def archiveDirFor (logDir yearMonth : String) : String :=
  logDir ++ "/archive/" ++ yearMonth

/-- The error entry `f"Error processing {log_file.name}: {e}"` (the
exception text is abstracted away). -/
def logErrorMsg (f : LogFile) : String := "Error processing " ++ f.name

/-- One iteration of the source's per-file loop. -/
def cleanupStep (auto : Bool) (archiveDir : String)
    (acc : CleanupReport × List FsOp) (f : LogFile) : CleanupReport × List FsOp :=
  let (r, ops) := acc
  if f.opFails then ({ r with errors := r.errors ++ [logErrorMsg f] }, ops)
  else if auto then
    ({ r with archived := r.archived + 1 },
      ops ++ [FsOp.rename f.name (archiveDir ++ "/" ++ f.name)])
  else
    ({ r with cleaned := r.cleaned + 1 }, ops ++ [FsOp.delete f.name])

/-- `WorkflowManager.cleanup_old_logs`. -/
def cleanup_old_logs (cfg : WorkflowConfig) (logDir yearMonth : String) (now : Int)
    (files : List LogFile) : CleanupReport × List FsOp :=
  let old := oldLogs cfg now files
  if old.isEmpty then ({ cleaned := 0, archived := 0, errors := [] }, [])
  else
    old.foldl (cleanupStep cfg.auto_archive_logs (archiveDirFor logDir yearMonth))
      ({ cleaned := 0, archived := 0, errors := [] }, [])

/-! ## ContextExtractor.generate_quick_context / generate_full_context
(`contextflow/core/context_extractor.py`)

The two view generators are modelled as the list of text lines written to
the context file, a blank write standing for the empty line. -/

structure ProjectMeta where
  name : String
  description : String
  ptype : String
  version : String
  tags : List String
deriving DecidableEq

structure FileStructure where
  root : String
  key_directories : List String
  config_files : List String
  documentation_files : List String
deriving DecidableEq

structure WorkflowInfo where
  mandatory_updates : Bool
  work_item_references : Bool
  session_logs : String
  context_directory : String
deriving DecidableEq

/-- The `project_context` dictionary handed to the two generators. -/
structure ProjectContext where
  project : ProjectMeta
  integrations : List String
  file_structure : FileStructure
  recent_changes : List String
  work_items : List String
  workflow : WorkflowInfo
deriving DecidableEq

/-- Lines of the quick view up to the recent-changes block. -/
def quickHead (ctx : ProjectContext) : List String :=
  ["PROJECT: " ++ ctx.project.name,
   "DESCRIPTION: " ++ ctx.project.description,
   "TYPE: " ++ ctx.project.ptype,
   "VERSION: " ++ ctx.project.version, ""] ++
  (if ctx.project.tags.isEmpty then []
   else ["TAGS: " ++ String.intercalate ", " ctx.project.tags, ""]) ++
  ["INTEGRATIONS:"] ++
  ctx.integrations.map (fun i => "- " ++ pyTitle i ++ ": ENABLED") ++ [""] ++
  ["KEY DIRECTORIES:"] ++
  ctx.file_structure.key_directories.map (fun d => "- " ++ d) ++ [""] ++
  ["CONFIGURATION FILES:"] ++
  ctx.file_structure.config_files.map (fun c => "- " ++ c) ++ [""]

/-- The quick view's recent-changes block: only the first 3 entries
(`project_context["recent_changes"][:3]`). -/
def quickRecentSection (ctx : ProjectContext) : List String :=
  if ctx.recent_changes.isEmpty then []
  else "RECENT CHANGES:" :: (ctx.recent_changes.take 3).map (fun c => "- " ++ c) ++ [""]

/-- The quick view's work-item block: only the first 5 entries
(`project_context["work_items"][:5]`). -/
def quickWorkSection (ctx : ProjectContext) : List String :=
  if ctx.work_items.isEmpty then []
  else "ACTIVE WORK ITEMS:" :: (ctx.work_items.take 5).map (fun i => "- " ++ i) ++ [""]

/-- Lines of the quick view after the work-item block. -/
def quickTail (ctx : ProjectContext) : List String :=
  ["WORKFLOW SETTINGS:",
   "- Mandatory session updates: " ++ (if ctx.workflow.mandatory_updates then "YES" else "NO"),
   "- Work item references required: " ++ (if ctx.workflow.work_item_references then "YES" else "NO"),
   "- Session logs: " ++ ctx.workflow.session_logs,
   "- Context directory: " ++ ctx.workflow.context_directory, "",
   "CONTEXTFLOW COMMANDS:",
   "- Update session: contextflow update \"[session summary]\"",
   "- Refresh context: contextflow context --refresh",
   "- View logs: contextflow logs --recent"]

/-- `ContextExtractor.generate_quick_context`, as the lines it writes. -/
def generate_quick_context (ctx : ProjectContext) : List String :=
  quickHead ctx ++ quickRecentSection ctx ++ quickWorkSection ctx ++ quickTail ctx

/-- Lines of the full view up to the recent-changes section. -/
def fullHead (now : String) (ctx : ProjectContext) : List String :=
  ["# " ++ ctx.project.name ++ " - AI Context", "",
   "**Generated:** " ++ now,
   "**Project Type:** " ++ ctx.project.ptype, "",
   "## 🎯 Project Overview", "",
   "**Name:** " ++ ctx.project.name,
   "**Description:** " ++ ctx.project.description,
   "**Version:** " ++ ctx.project.version] ++
  (if ctx.project.tags.isEmpty then []
   else ["**Tags:** " ++ String.intercalate ", " ctx.project.tags]) ++ [""] ++
  ["## 🔗 Integrations", ""] ++
  (if ctx.integrations.isEmpty then ["- No integrations currently enabled"]
   else ctx.integrations.map (fun i => "- **" ++ pyTitle i ++ ":** Enabled")) ++ [""] ++
  ["## 📁 Project Structure", "",
   "**Root Directory:** " ++ ctx.file_structure.root, ""] ++
  (if ctx.file_structure.key_directories.isEmpty then []
   else "**Key Directories:**" ::
     ctx.file_structure.key_directories.map (fun d => "- " ++ d) ++ [""]) ++
  (if ctx.file_structure.config_files.isEmpty then []
   else "**Configuration Files:**" ::
     ctx.file_structure.config_files.map (fun c => "- " ++ c) ++ [""]) ++
  (if ctx.file_structure.documentation_files.isEmpty then []
   else "**Documentation Files:**" ::
     ctx.file_structure.documentation_files.map (fun d => "- " ++ d) ++ [""])

/-- The full view's recent-changes section: every entry is rendered. -/
def fullRecentSection (ctx : ProjectContext) : List String :=
  if ctx.recent_changes.isEmpty then []
  else "## 🔄 Recent Changes" :: "" ::
    ctx.recent_changes.map (fun c => "- " ++ c) ++ [""]

/-- The full view's work-item section: every entry is rendered. -/
def fullWorkSection (ctx : ProjectContext) : List String :=
  if ctx.work_items.isEmpty then []
  else "## 🎫 Active Work Items" :: "" ::
    ctx.work_items.map (fun i => "- " ++ i) ++ [""]

/-- Lines of the full view after the work-item section. -/
def fullTail (ctx : ProjectContext) : List String :=
  ["## ⚙️ Workflow Configuration", "",
   "- **Mandatory session updates:** " ++
     (if ctx.workflow.mandatory_updates then "Enabled" else "Disabled"),
   "- **Work item references required:** " ++
     (if ctx.workflow.work_item_references then "Yes" else "No"),
   "- **Session logs directory:** " ++ ctx.workflow.session_logs,
   "- **Context directory:** " ++ ctx.workflow.context_directory, "",
   "## 🚀 ContextFlow Commands", "",
   "```bash",
   "# Update session documentation",
   "contextflow update \"[detailed session summary]\"", "",
   "# Refresh AI context",
   "contextflow context --refresh", "",
   "# View recent session logs",
   "contextflow logs --recent", "",
   "# Show project status",
   "contextflow status",
   "```", "",
   "---", "",
   "*This context file is automatically generated by ContextFlow. Use `contextflow context --refresh` to update with latest project information.*"]

/-- `ContextExtractor.generate_full_context`, as the lines it writes;
`now` is the embedded generation timestamp. -/
def generate_full_context (now : String) (ctx : ProjectContext) : List String :=
  fullHead now ctx ++ fullRecentSection ctx ++ fullWorkSection ctx ++ fullTail ctx

/-! ## Theorems settling the claims -/

/-- C4: validating the summary "short" under a policy that requires
work-item references yields valid = false, exactly the one error about
missing work-item references, the warning that the summary is shorter than
20 characters, and the suggestion about missing action words. -/
theorem validate_short_summary_result :
    (validate_session_update ⟨true, true, 30, true⟩ "short").valid = false ∧
    (validate_session_update ⟨true, true, 30, true⟩ "short").errors = [workItemsError] ∧
    (validate_session_update ⟨true, true, 30, true⟩ "short").warnings = [shortSummaryWarning] ∧
    actionWordsSuggestion ∈ (validate_session_update ⟨true, true, 30, true⟩ "short").suggestions := by
  decide

/-- C5: parsing "Fixed PROJ-123 and #456, see issue-789" extracts exactly
the three-element set of work items PROJ-123, #456 and issue-789. -/
theorem extract_work_items_example :
    ((parse_session_summary "generic" "ts" "Fixed PROJ-123 and #456, see issue-789").work_items).Nodup ∧
    (parse_session_summary "generic" "ts" "Fixed PROJ-123 and #456, see issue-789").work_items.length = 3 ∧
    "PROJ-123" ∈ (parse_session_summary "generic" "ts" "Fixed PROJ-123 and #456, see issue-789").work_items ∧
    "#456" ∈ (parse_session_summary "generic" "ts" "Fixed PROJ-123 and #456, see issue-789").work_items ∧
    "issue-789" ∈ (parse_session_summary "generic" "ts" "Fixed PROJ-123 and #456, see issue-789").work_items := by
  decide

/-- Closed form of the validation dictionary: the mutation chain of
`validate_session_update` resolved check by check. -/
theorem validate_eq (cfg : WorkflowConfig) (s : String) :
    validate_session_update cfg s =
      { valid := !(cfg.require_work_item_references && !hasWorkItemReferences s),
        warnings := if (pyStrip s).length < 20 then [shortSummaryWarning] else [],
        errors := if cfg.require_work_item_references && !hasWorkItemReferences s then
            [workItemsError] else [],
        suggestions :=
          (if !hasActionWords s then [actionWordsSuggestion] else []) ++
          (if !hasFileReferences s then [fileReferencesSuggestion] else []) } := by
  unfold validate_session_update
  cases hr : cfg.require_work_item_references <;> cases hw : hasWorkItemReferences s <;>
    split_ifs <;> simp_all

/-- C3: the validation result is invalid exactly when the single mandatory
rule fails, that is when work-item references are required and none of the
four patterns matches; the length warning and the two suggestions never
change `valid`. -/
theorem valid_iff_mandatory_rule_fails :
    ∀ (cfg : WorkflowConfig) (s : String),
      (validate_session_update cfg s).valid = false ↔
        cfg.require_work_item_references = true ∧ hasWorkItemReferences s = false := by
  intro cfg s
  rw [validate_eq]
  cases cfg.require_work_item_references <;> cases h : hasWorkItemReferences s <;> simp_all

/-- C2 counterexample: on the summary "short" under a policy with
mandatory updates and required work items, validation fails with a
non-empty warning list, yet the warning line is not among the surfaced
messages — warnings are not surfaced when the returned boolean is false,
contradicting the claim's "regardless of whether the returned boolean is
true or false". -/
theorem enforce_hides_warnings_on_failure :
    (validate_session_update ⟨true, true, 30, true⟩ "short").warnings =
      [shortSummaryWarning] ∧
    (enforce_workflow_compliance ⟨true, true, 30, true⟩ "short").1 = false ∧
    bulletLine shortSummaryWarning ∉
      (enforce_workflow_compliance ⟨true, true, 30, true⟩ "short").2 := by
  decide

/-- Every warning produced by `validate_session_update` is the fixed short
warning. -/
theorem validate_warnings_char (cfg : WorkflowConfig) (s : String) :
    ∀ m ∈ (validate_session_update cfg s).warnings, m = shortSummaryWarning := by
  rw [validate_eq]
  intro m hm
  by_cases h : (pyStrip s).length < 20 <;> simp_all

/-- Every suggestion produced by `validate_session_update` is one of the
two fixed suggestions. -/
theorem validate_suggestions_char (cfg : WorkflowConfig) (s : String) :
    ∀ m ∈ (validate_session_update cfg s).suggestions,
      m = actionWordsSuggestion ∨ m = fileReferencesSuggestion := by
  rw [validate_eq]
  intro m hm
  by_cases h1 : hasActionWords s <;> by_cases h2 : hasFileReferences s <;> simp_all

/-- Every error produced by `validate_session_update` is the fixed
work-item error. -/
theorem validate_errors_char (cfg : WorkflowConfig) (s : String) :
    ∀ e ∈ (validate_session_update cfg s).errors, e = workItemsError := by
  rw [validate_eq]
  intro e he
  by_cases h : cfg.require_work_item_references && !hasWorkItemReferences s <;> simp_all

/-- A valid result carries no errors. -/
theorem validate_valid_no_errors (cfg : WorkflowConfig) (s : String) :
    (validate_session_update cfg s).valid = true →
      (validate_session_update cfg s).errors = [] := by
  rw [validate_eq]
  by_cases h : cfg.require_work_item_references && !hasWorkItemReferences s <;> simp_all

/-- C2 amended: when mandatory session updates are off, enforcement
returns true with nothing surfaced; otherwise it returns the validation's
`valid` flag, always surfaces the error lines, but surfaces warning and
suggestion lines only when validation succeeded — not regardless of the
returned boolean. -/
theorem enforce_compliance_amended :
    ∀ (cfg : WorkflowConfig) (s : String),
      (cfg.mandatory_session_updates = false →
        enforce_workflow_compliance cfg s = (true, [])) ∧
      ((enforce_workflow_compliance cfg s).1 =
        (!cfg.mandatory_session_updates || (validate_session_update cfg s).valid)) ∧
      (∀ e ∈ (validate_session_update cfg s).errors,
        cfg.mandatory_session_updates = true →
          bulletLine e ∈ (enforce_workflow_compliance cfg s).2) ∧
      ((validate_session_update cfg s).valid = false →
        ∀ m ∈ (validate_session_update cfg s).warnings ++
            (validate_session_update cfg s).suggestions,
          bulletLine m ∉ (enforce_workflow_compliance cfg s).2) ∧
      (cfg.mandatory_session_updates = true →
        (validate_session_update cfg s).valid = true →
          ∀ m ∈ (validate_session_update cfg s).warnings ++
              (validate_session_update cfg s).suggestions,
            bulletLine m ∈ (enforce_workflow_compliance cfg s).2) := by
  intro cfg s
  cases hm : cfg.mandatory_session_updates
  · simp [enforce_workflow_compliance, hm]
  · cases hv : (validate_session_update cfg s).valid
    · have hout : enforce_workflow_compliance cfg s =
          (false, failedHeader :: (validate_session_update cfg s).errors.map bulletLine) := by
        simp [enforce_workflow_compliance, hm, hv]
      refine ⟨by simp [hm], by simp [hout, hm, hv], ?_, ?_, by simp [hv]⟩
      · intro e he _
        exact hout ▸ List.mem_cons_of_mem _ (List.mem_map_of_mem bulletLine he)
      · intro _ m hmem hbad
        rw [hout] at hbad
        rcases List.mem_append.mp hmem with h | h
        · have hmw := validate_warnings_char cfg s m h
          subst hmw
          rcases List.mem_cons.mp hbad with h2 | h2
          · exact absurd h2 (by decide)
          · obtain ⟨e, he, he2⟩ := List.mem_map.mp h2
            have := validate_errors_char cfg s e he
            subst this
            exact absurd he2 (by decide)
        · rcases validate_suggestions_char cfg s m h with hms | hms <;>
          · subst hms
            rcases List.mem_cons.mp hbad with h2 | h2
            · exact absurd h2 (by decide)
            · obtain ⟨e, he, he2⟩ := List.mem_map.mp h2
              have := validate_errors_char cfg s e he
              subst this
              exact absurd he2 (by decide)
    · have hout : enforce_workflow_compliance cfg s =
          (true,
            (if !(validate_session_update cfg s).warnings.isEmpty then
              warningsHeader :: (validate_session_update cfg s).warnings.map bulletLine
             else []) ++
            (if !(validate_session_update cfg s).suggestions.isEmpty then
              suggestionsHeader :: (validate_session_update cfg s).suggestions.map bulletLine
             else [])) := by
        simp [enforce_workflow_compliance, hm, hv]
      refine ⟨by simp [hm], by simp [hout, hm, hv], ?_, by simp [hv], ?_⟩
      · intro e he _
        rw [validate_valid_no_errors cfg s hv] at he
        exact absurd he (List.not_mem_nil e)
      · intro _ _ m hmem
        rw [hout]
        rcases List.mem_append.mp hmem with h | h
        · apply List.mem_append_left
          have hne : (validate_session_update cfg s).warnings.isEmpty = false :=
            List.isEmpty_eq_false_iff_exists_mem.mpr ⟨m, h⟩
          rw [hne]
          exact List.mem_cons_of_mem _ (List.mem_map_of_mem bulletLine h)
        · apply List.mem_append_right
          have hne : (validate_session_update cfg s).suggestions.isEmpty = false :=
            List.isEmpty_eq_false_iff_exists_mem.mpr ⟨m, h⟩
          rw [hne]
          exact List.mem_cons_of_mem _ (List.mem_map_of_mem bulletLine h)

/-- The `\w+\.\w+` matcher succeeds on any input starting with a word
character, a dot and a word character. -/
theorem matchWordDotWord_head (c1 c2 : Char) (b : List Char)
    (h1 : isWordCh c1 = true) (h2 : isWordCh c2 = true) :
    (matchWordDotWord (c1 :: '.' :: c2 :: b)).isSome = true := by
  have hdot : isWordCh '.' = false := by decide
  simp [matchWordDotWord, List.takeWhile_cons, List.dropWhile_cons, h1, h2, hdot]

/-- A head match at any suffix makes `re.search` succeed. -/
theorem reSearch_of_suffix (m : List Char → Option (List Char)) (a : List Char)
    (c : Char) (t : List Char) (h : (m (c :: t)).isSome = true) :
    reSearch m (a ++ c :: t) = true := by
  induction a with
  | nil => simp [reSearch, h]
  | cons x xs ih => simp [reSearch, ih]

/-- A word-character/dot/word-character triple anywhere makes the
validator's file heuristic succeed. -/
theorem hasFileReferences_of_triple (a b : List Char) (c1 c2 : Char)
    (h1 : isWordCh c1 = true) (h2 : isWordCh c2 = true) :
    hasFileReferences ⟨a ++ c1 :: '.' :: c2 :: b⟩ = true := by
  have hs := reSearch_of_suffix matchWordDotWord a c1 ('.' :: c2 :: b)
    (matchWordDotWord_head c1 c2 b h1 h2)
  unfold hasFileReferences
  rw [show (⟨a ++ c1 :: '.' :: c2 :: b⟩ : String).data = a ++ c1 :: '.' :: c2 :: b from rfl, hs]
  simp

/-- C10: a summary containing any word-characters/dot/word-characters
token — in particular a purely numeric one such as 1.2 or 3.5 — never
receives the suggestion about mentioning modified files, because the
validator's file-like pattern accepts digit-only extensions. -/
theorem version_number_suppresses_file_suggestion :
    ∀ (cfg : WorkflowConfig) (a b : List Char) (c1 c2 : Char),
      isWordCh c1 = true → isWordCh c2 = true →
      fileReferencesSuggestion ∉
        (validate_session_update cfg ⟨a ++ c1 :: '.' :: c2 :: b⟩).suggestions := by
  intro cfg a b c1 c2 h1 h2
  have hf := hasFileReferences_of_triple a b c1 c2 h1 h2
  rw [validate_eq]
  by_cases ha : hasActionWords ⟨a ++ c1 :: '.' :: c2 :: b⟩ <;> simp [hf, ha]
  all_goals decide

/-- Witness for C10 at the concrete decimal-only summary "1.2". -/
theorem version_number_suppresses_file_suggestion_witness :
    fileReferencesSuggestion ∉
      (validate_session_update ⟨true, true, 30, true⟩ "1.2").suggestions := by
  have h := version_number_suppresses_file_suggestion ⟨true, true, 30, true⟩ [] []
    '1' '2' (by decide) (by decide)
  have e : (⟨[] ++ '1' :: '.' :: '2' :: []⟩ : String) = "1.2" := by decide
  rw [e] at h
  exact h

/-- takeWhile runs through a block that satisfies the predicate wholesale. -/
theorem takeWhile_all_append (p : Char → Bool) (l1 l2 : List Char)
    (h : ∀ c ∈ l1, p c = true) :
    (l1 ++ l2).takeWhile p = l1 ++ l2.takeWhile p := by
  induction l1 with
  | nil => simp
  | cons x xs ih =>
    simp only [List.cons_append, List.takeWhile_cons, h x (by simp)]
    rw [ih (fun c hc => h c (by simp [hc]))]
    simp

/-- dropWhile skips a block that satisfies the predicate wholesale. -/
theorem dropWhile_all_append (p : Char → Bool) (l1 l2 : List Char)
    (h : ∀ c ∈ l1, p c = true) :
    (l1 ++ l2).dropWhile p = l2.dropWhile p := by
  induction l1 with
  | nil => simp
  | cons x xs ih =>
    simp only [List.cons_append, List.dropWhile_cons, h x (by simp), if_pos]
    exact ih (fun c hc => h c (by simp [hc]))

/-- takeWhile keeps a list all of whose members satisfy the predicate. -/
theorem takeWhile_all_self (p : Char → Bool) (l : List Char)
    (h : ∀ c ∈ l, p c = true) : l.takeWhile p = l := by
  have := takeWhile_all_append p l [] h
  simpa using this

/-- The IGNORECASE-compiled `[A-Z]+-\d+` matcher consumes a whole
letters-hyphen-digits input, whatever the letter case. -/
theorem matchJira_full (a b : List Char) (ha : a ≠ []) (hb : b ≠ [])
    (hla : ∀ c ∈ a, isLowerAZ c = true) (hdb : ∀ c ∈ b, isDigit09 c = true) :
    matchJira (a ++ '-' :: b) = some (a ++ '-' :: b) := by
  have hlet : ∀ c ∈ a, isLetterAZ c = true := fun c hc => by
    simp [isLetterAZ, hla c hc]
  have hdash : isLetterAZ '-' = false := by decide
  have hea : a.isEmpty = false := by cases a with | nil => exact absurd rfl ha | cons x xs => rfl
  have heb : b.isEmpty = false := by cases b with | nil => exact absurd rfl hb | cons x xs => rfl
  have ht : (a ++ '-' :: b).takeWhile isLetterAZ = a := by
    rw [takeWhile_all_append _ _ _ hlet]
    simp [List.takeWhile_cons, hdash]
  have hd : (a ++ '-' :: b).dropWhile isLetterAZ = '-' :: b := by
    rw [dropWhile_all_append _ _ _ hlet]
    simp [List.dropWhile_cons, hdash]
  have htb : b.takeWhile isDigit09 = b := takeWhile_all_self _ _ hdb
  unfold matchJira
  rw [ht, hd]
  simp [htb, hea, heb]

/-- C1 counterexample: the lowercase project key proj-123 — all-lowercase
letters, hyphen, digits, matched by none of the hash/issue/task patterns —
is nevertheless included in the parsed work items (and satisfies the
validator's work-item check), because `re.IGNORECASE` also widens the
`[A-Z]` class of the first pattern. -/
theorem lowercase_key_is_extracted :
    "proj".data.all isLowerAZ = true ∧
    "123".data.all isDigit09 = true ∧
    reSearch matchHash "proj-123".data = false ∧
    reSearch (matchKw "issue-".data) "proj-123".data = false ∧
    reSearch (matchKw "task-".data) "proj-123".data = false ∧
    "proj-123" ∈ (parse_session_summary "python" "ts" "proj-123").work_items ∧
    hasWorkItemReferences "proj-123" = true := by
  decide

/-- C1 amended: the `[A-Z]+-\d+` sub-pattern is applied with
`re.IGNORECASE`, so every standalone lowercase-letters-hyphen-digits token
IS matched by it and appears among the extracted work items. -/
theorem lowercase_keys_are_matched :
    ∀ (pt ts : String) (a b : List Char), a ≠ [] → b ≠ [] →
      (∀ c ∈ a, isLowerAZ c = true) → (∀ c ∈ b, isDigit09 c = true) →
      (⟨a ++ '-' :: b⟩ : String) ∈
        (parse_session_summary pt ts ⟨a ++ '-' :: b⟩).work_items := by
  intro pt ts a b ha hb hla hdb
  have hm := matchJira_full a b ha hb hla hdb
  show (⟨a ++ '-' :: b⟩ : String) ∈ (workItemMatches ⟨a ++ '-' :: b⟩).dedup
  rw [List.mem_dedup]
  apply List.mem_append_left
  apply List.mem_append_left
  apply List.mem_append_left
  unfold findAllS findAll
  obtain ⟨x, xs, rfl⟩ : ∃ x xs, a = x :: xs := by
    cases a with
    | nil => exact absurd rfl ha
    | cons x xs => exact ⟨x, xs, rfl⟩
  rw [show ((⟨(x :: xs) ++ '-' :: b⟩ : String)).data = (x :: xs) ++ '-' :: b from rfl]
  simp only [List.cons_append] at hm ⊢
  simp only [List.length_cons, findAllAux, hm]
  simp

/-- Witness for the amended C1 at the concrete key proj-123. -/
theorem lowercase_keys_are_matched_witness :
    "proj-123" ∈ (parse_session_summary "python" "ts" "proj-123").work_items := by
  have h := lowercase_keys_are_matched "python" "ts" "proj".data "123".data
    (by decide) (by decide) (by decide) (by decide)
  have e : (⟨"proj".data ++ '-' :: "123".data⟩ : String) = "proj-123" := by decide
  rw [e] at h
  exact h

/-- C6: work-item extraction is a total function of the input text (it is a
Lean function, so it never fails), it yields the empty collection on a
summary with no matches, and its result never contains an element twice. -/
theorem work_items_total_and_nodup :
    ∀ pt ts s, ((parse_session_summary pt ts s).work_items).Nodup ∧
      (parse_session_summary pt ts "").work_items = [] := by
  intro pt ts s
  exact ⟨List.nodup_dedup _, rfl⟩

/-- Closed form of the per-file loop of `cleanup_old_logs`: failing files
contribute an error entry, the others one archive or delete operation and
the corrresponding counter bump, independently of any earlier failure. -/
theorem cleanup_foldl (auto : Bool) (ad : String) (l : List LogFile)
    (r : CleanupReport) (ops : List FsOp) :
    l.foldl (cleanupStep auto ad) (r, ops) =
      ({ cleaned := r.cleaned + (if auto then 0 else (l.filter (fun f => !f.opFails)).length),
         archived := r.archived + (if auto then (l.filter (fun f => !f.opFails)).length else 0),
         errors := r.errors ++ (l.filter (fun f => f.opFails)).map logErrorMsg },
       ops ++ (l.filter (fun f => !f.opFails)).map (fun f =>
         if auto then FsOp.rename f.name (ad ++ "/" ++ f.name) else FsOp.delete f.name)) := by
  induction l generalizing r ops with
  | nil => simp
  | cons f t ih =>
    cases auto <;> cases hf : f.opFails <;>
      simp [List.foldl_cons, List.filter_cons, cleanupStep, hf, ih,
        CleanupReport.mk.injEq, List.append_assoc, Nat.add_assoc, Nat.add_comm,
        Nat.add_left_comm]

/-- C7: the cleanup pass processes exactly the logs older than the
retention cutoff; with auto-archiving on, each non-failing one is renamed
into the dated archive path and the deleted count stays 0; with it off,
each is deleted and the archived count stays 0; each failing record adds
an error entry and never aborts the rest of the batch. -/
theorem cleanup_processes_exactly_expired :
    ∀ (cfg : WorkflowConfig) (logDir ym : String) (now : Int) (files : List LogFile),
      ((cleanup_old_logs cfg logDir ym now files).1.errors =
        ((oldLogs cfg now files).filter (fun f => f.opFails)).map logErrorMsg) ∧
      ((cleanup_old_logs cfg logDir ym now files).1.archived =
        if cfg.auto_archive_logs then
          ((oldLogs cfg now files).filter (fun f => !f.opFails)).length else 0) ∧
      ((cleanup_old_logs cfg logDir ym now files).1.cleaned =
        if cfg.auto_archive_logs then 0 else
          ((oldLogs cfg now files).filter (fun f => !f.opFails)).length) ∧
      ((cleanup_old_logs cfg logDir ym now files).2 =
        ((oldLogs cfg now files).filter (fun f => !f.opFails)).map (fun f =>
          if cfg.auto_archive_logs then
            FsOp.rename f.name (archiveDirFor logDir ym ++ "/" ++ f.name)
          else FsOp.delete f.name)) := by
  intro cfg logDir ym now files
  unfold cleanup_old_logs
  by_cases h : (oldLogs cfg now files).isEmpty
  · have hnil : oldLogs cfg now files = [] := by
      cases he : oldLogs cfg now files with
      | nil => rfl
      | cons x xs => rw [he] at h; exact absurd h (by simp)
    simp [h, hnil]
  · simp [h, cleanup_foldl]

/-- A list with `isEmpty = true` is nil. -/
theorem isEmpty_true_eq_nil {α : Type} {l : List α} (h : l.isEmpty = true) : l = [] := by
  cases l with
  | nil => rfl
  | cons x xs => exact absurd h (by simp)

/-- C8: the compact snapshot renders at most 3 recent-changes entries and
at most 5 work-item entries (the `[:3]` and `[:5]` slices), and those
truncated blocks do occur verbatim in the compact view, while the full
view renders the complete recent-changes and work-item lists without a
bound. -/
theorem context_view_entry_bounds :
    ∀ (ctx : ProjectContext) (now : String),
      ((ctx.recent_changes.take 3).map (fun c => "- " ++ c)).length ≤ 3 ∧
      ((ctx.work_items.take 5).map (fun i => "- " ++ i)).length ≤ 5 ∧
      (∃ u v, generate_quick_context ctx =
        u ++ (ctx.recent_changes.take 3).map (fun c => "- " ++ c) ++ v) ∧
      (∃ u v, generate_quick_context ctx =
        u ++ (ctx.work_items.take 5).map (fun i => "- " ++ i) ++ v) ∧
      (∃ u v, generate_full_context now ctx =
        u ++ ctx.recent_changes.map (fun c => "- " ++ c) ++ v) ∧
      (∃ u v, generate_full_context now ctx =
        u ++ ctx.work_items.map (fun i => "- " ++ i) ++ v) := by
  intro ctx now
  refine ⟨?_, ?_, ?_, ?_, ?_, ?_⟩
  · simp [List.length_take]
  · simp [List.length_take]
  · by_cases h : ctx.recent_changes.isEmpty
    · exact ⟨generate_quick_context ctx, [], by simp [isEmpty_true_eq_nil h]⟩
    · refine ⟨quickHead ctx ++ ["RECENT CHANGES:"],
        [""] ++ quickWorkSection ctx ++ quickTail ctx, ?_⟩
      simp [generate_quick_context, quickRecentSection, h, List.append_assoc]
  · by_cases h : ctx.work_items.isEmpty
    · exact ⟨generate_quick_context ctx, [], by simp [isEmpty_true_eq_nil h]⟩
    · refine ⟨quickHead ctx ++ quickRecentSection ctx ++ ["ACTIVE WORK ITEMS:"],
        [""] ++ quickTail ctx, ?_⟩
      simp [generate_quick_context, quickWorkSection, h, List.append_assoc]
  · by_cases h : ctx.recent_changes.isEmpty
    · exact ⟨generate_full_context now ctx, [], by simp [isEmpty_true_eq_nil h]⟩
    · refine ⟨fullHead now ctx ++ ["## 🔄 Recent Changes", ""],
        [""] ++ fullWorkSection ctx ++ fullTail ctx, ?_⟩
      simp [generate_full_context, fullRecentSection, h, List.append_assoc]
  · by_cases h : ctx.work_items.isEmpty
    · exact ⟨generate_full_context now ctx, [], by simp [isEmpty_true_eq_nil h]⟩
    · refine ⟨fullHead now ctx ++ fullRecentSection ctx ++ ["## 🎫 Active Work Items", ""],
        [""] ++ fullTail ctx, ?_⟩
      simp [generate_full_context, fullWorkSection, h, List.append_assoc]

/-- C9: a category-specific list is non-empty only when its category was
triggered (and hence recorded in `categories`); every collected element is
a whitespace-stripped line of the raw summary in order of appearance
(each list is a sublist of the stripped line sequence); and a category can
be present with an empty list — the summary "bug" triggers bugfix while no
line contains fixed/resolved/corrected. -/
theorem category_lists_invariant :
    ∀ (pt ts s : String),
      ((parse_session_summary pt ts s).features_added ≠ [] →
        "feature" ∈ (parse_session_summary pt ts s).categories) ∧
      ((parse_session_summary pt ts s).bugs_fixed ≠ [] →
        "bugfix" ∈ (parse_session_summary pt ts s).categories) ∧
      ((parse_session_summary pt ts s).architecture_changes ≠ [] →
        "architecture" ∈ (parse_session_summary pt ts s).categories) ∧
      ((parse_session_summary pt ts s).documentation_updates ≠ [] →
        "documentation" ∈ (parse_session_summary pt ts s).categories) ∧
      List.Sublist (parse_session_summary pt ts s).features_added
        ((pySplitLines s).map pyStrip) ∧
      List.Sublist (parse_session_summary pt ts s).bugs_fixed
        ((pySplitLines s).map pyStrip) ∧
      List.Sublist (parse_session_summary pt ts s).architecture_changes
        ((pySplitLines s).map pyStrip) ∧
      List.Sublist (parse_session_summary pt ts s).documentation_updates
        ((pySplitLines s).map pyStrip) ∧
      ("bugfix" ∈ (parse_session_summary "x" "y" "bug").categories ∧
        (parse_session_summary "x" "y" "bug").bugs_fixed = []) := by
  intro pt ts s
  simp only [parse_session_summary]
  refine ⟨?_, ?_, ?_, ?_, ?_, ?_, ?_, ?_, ?_⟩
  · by_cases hf : featureTerms.any (fun t => strIn t (pyLower s)) <;>
      simp [hf, List.mem_dedup]
  · by_cases hf : bugfixTerms.any (fun t => strIn t (pyLower s)) <;>
      simp [hf, List.mem_dedup]
  · by_cases hf : architectureTerms.any (fun t => strIn t (pyLower s)) <;>
      simp [hf, List.mem_dedup]
  · by_cases hf : documentationTerms.any (fun t => strIn t (pyLower s)) <;>
      simp [hf, List.mem_dedup]
  · by_cases hf : featureTerms.any (fun t => strIn t (pyLower s)) <;> simp [hf]
    exact (List.filter_sublist _).map pyStrip
  · by_cases hf : bugfixTerms.any (fun t => strIn t (pyLower s)) <;> simp [hf]
    exact (List.filter_sublist _).map pyStrip
  · by_cases hf : architectureTerms.any (fun t => strIn t (pyLower s)) <;> simp [hf]
    exact (List.filter_sublist _).map pyStrip
  · by_cases hf : documentationTerms.any (fun t => strIn t (pyLower s)) <;> simp [hf]
    exact (List.filter_sublist _).map pyStrip
  · decide

end ContextFlow
